import Mathlib

/-!
Shallow embedding of the xkbgrowl X11 utility layer (src/x11Util.cpp,
src/x11Util.h) and proofs about the claims of the specification.

Machine integers of the C++ source are modelled as `Nat` (all quantities
involved — pixel bytes, image dimensions, buffer indices — are small and
non-negative in every scenario the claims quantify over); byte buffers are
`List Nat`; fallible X11 calls are modelled by `Option`-valued environment
fields describing what the server returns for each call the code makes.
-/

namespace Xkbgrowl

-- ───────────────────────────────────────────────────────────────────────────
-- RawImageProxy (src/x11Util.cpp lines 229-259): image proxy holding raw
-- ARGB bytes copied out of the _NET_WM_ICON window property.
-- ───────────────────────────────────────────────────────────────────────────

/-- The state of a `RawImageProxy`: the dimensions passed to the constructor
and the byte buffer `pixels_` it owns. -/
structure RawImageProxy where
  width : Nat
  height : Nat
  pixels : List Nat
  deriving DecidableEq, Repr

/-- Constructor `RawImageProxy::RawImageProxy` (lines 239-244): it computes
`num_bytes = width * height * 4` and `memcpy`s exactly that many bytes from
the source buffer `data` into its own freshly allocated buffer `pixels_`. -/
def mkRawImageProxy (width height : Nat) (data : List Nat) : RawImageProxy :=
  { width := width, height := height, pixels := data.take (width * height * 4) }

/-- The buffer indices `p + c` read by `RawImageProxy::provideARGB`
(lines 248-259) for a request `(x, y, width, height)`:
`p = (((yd + y) * width) + (xd + x)) * 4` for `yd < height`, `xd < width`,
`c < 4`, in the order the loops visit them.  Note the source uses the
request `width`, not the image width, as the row stride. -/
def rawReadIndices (x y width height : Nat) : List Nat :=
  (List.range height).flatMap (fun yd =>
    (List.range width).flatMap (fun xd =>
      (List.range 4).map (fun c => (((yd + y) * width) + (xd + x)) * 4 + c)))

/-- `RawImageProxy::provideARGB` (lines 248-259): the triple nested loop
writing, for each requested pixel, the four bytes
`pixels_[p], … , pixels_[p+3]` with `p = (((yd + y) * width) + (xd + x)) * 4`.
A C read past the end of the buffer is modelled by `List.getD _ _ 0`;
`rawReadIndices` records which indices are read so that out-of-bounds
accesses can be stated separately. -/
def RawImageProxy.provideARGB (img : RawImageProxy) (x y width height : Nat) :
    List Nat :=
  (List.range height).flatMap (fun yd =>
    (List.range width).flatMap (fun xd =>
      (List.range 4).map (fun c =>
        img.pixels.getD ((((yd + y) * width) + (xd + x)) * 4 + c) 0)))

-- ───────────────────────────────────────────────────────────────────────────
-- Concrete inputs for the end-to-end scenario and for the stride analysis.
-- ───────────────────────────────────────────────────────────────────────────

/-- One pixel of the 16×16 checkerboard of the end-to-end scenario:
fully-opaque red `0xFF,0xFF,0x00,0x00` on even parity, fully-transparent
`0x00,0x00,0x00,0x00` on odd parity. -/
def checkerPixel (x y : Nat) : List Nat :=
  if (x + y) % 2 = 0 then [0xff, 0xff, 0x00, 0x00] else [0x00, 0x00, 0x00, 0x00]

/-- The 1024-byte ARGB buffer of the 16×16 checkerboard icon, row-major. -/
def checkerBytes : List Nat :=
  (List.range 16).flatMap (fun y => (List.range 16).flatMap (fun x => checkerPixel x y))

-- ───────────────────────────────────────────────────────────────────────────
-- XImageProxy (src/x11Util.cpp lines 145-223): image proxy holding a pixmap
-- XImage and an optional mask XImage.
-- ───────────────────────────────────────────────────────────────────────────

/-- An `XImage` as the code observes it: its geometry and the pixel values
returned by `XGetPixel`. -/
structure XImg where
  width : Nat
  height : Nat
  getPixel : Nat → Nat → Nat

/-- The state of an `XImageProxy`: `width_`/`height_` (set by the constructor,
lines 160-164, from `pixmap->width` and `pixmap->height`), the owned pixmap
image, and the optional owned mask image. -/
structure XImageProxy where
  width : Nat
  height : Nat
  pixmap : XImg
  mask : Option XImg

/-- `FakeXQueryColor` (lines 177-188): a non-zero pixel value is mapped to
black (`0x0000, 0x0000, 0x0000`), zero to white (`0xffff, 0xffff, 0xffff`).
Returns `(red, green, blue)` as 16-bit channel values. -/
def FakeXQueryColor (pixel : Nat) : Nat × Nat × Nat :=
  if pixel ≠ 0 then (0x0000, 0x0000, 0x0000) else (0xffff, 0xffff, 0xffff)

/-- `XImageProxy::providePixel` (lines 190-214).  The two `assert`s reject
any pixel with `x ≥ width_` or `y ≥ height_` (modelled as `Option.none`);
otherwise the four bytes emitted are the alpha byte — `0xff` when there is
no mask, else `0xff`/`0x00` according to whether `XGetPixel(mask_, x, y)`
is non-zero — followed by the three 8-bit colour channels. -/
def XImageProxy.providePixel (img : XImageProxy) (x y : Nat) :
    Option (List Nat) :=
  if x < img.width ∧ y < img.height then
    let color := FakeXQueryColor (img.pixmap.getPixel x y)
    let alpha : Nat :=
      match img.mask with
      | Option.some m => if m.getPixel x y ≠ 0 then 0xff else 0x00
      | Option.none => 0xff
    Option.some [alpha, color.1 >>> 8, color.2.1 >>> 8, color.2.2 >>> 8]
  else
    Option.none

/-- The inner loop of `XImageProxy::provideARGB` (lines 216-223): emit the
pixels of one row, `x`-indices `x, x+1, …, x+width-1`, at row `y`.
A failed assertion anywhere aborts (`Option.none`). -/
def XImageProxy.provideRow (img : XImageProxy) (y x width : Nat) :
    Option (List Nat) :=
  match width with
  | 0 => Option.some []
  | w + 1 =>
    match img.providePixel x y, img.provideRow y (x + 1) w with
    | Option.some px, Option.some rest => Option.some (px ++ rest)
    | _, _ => Option.none

/-- The outer loop of `XImageProxy::provideARGB`: emit the rows with
`y`-indices `y, y+1, …, y+height-1`. -/
def XImageProxy.provideRows (img : XImageProxy) (x width y height : Nat) :
    Option (List Nat) :=
  match height with
  | 0 => Option.some []
  | h + 1 =>
    match img.provideRow y x width, img.provideRows x width (y + 1) h with
    | Option.some row, Option.some rest => Option.some (row ++ rest)
    | _, _ => Option.none

/-- `XImageProxy::provideARGB` (lines 216-223): the row-major double loop
over the requested rectangle, each pixel delegated to `providePixel`. -/
def XImageProxy.provideARGB (img : XImageProxy) (x y width height : Nat) :
    Option (List Nat) :=
  img.provideRows x width y height

-- ───────────────────────────────────────────────────────────────────────────
-- BellEventImpl::GetAttributesFromWindow (src/x11Util.cpp lines 356-419):
-- window-attribute resolution and icon-source selection.
-- ───────────────────────────────────────────────────────────────────────────

/-- What the code observes of a window's `XWMHints` (lines 394-418): the
three relevant flag bits and, for each referenced drawable, the result of
`GetImage` on it (`Option.none` when `XGetGeometry`/`XGetImage` fails). -/
structure HintsEnv where
  iconWindowHint : Bool
  iconWindowImage : Option XImg
  iconPixmapHint : Bool
  iconPixmapImage : Option XImg
  iconMaskHint : Bool
  iconMaskImage : Option XImg

/-- What the code observes of a window while probing for an icon: the
outcomes of the three `XGetWindowProperty` calls on `_NET_WM_ICON`
(lines 373-389) and of `XGetWMHints` (line 394).  `fetch1`/`fetch2` are the
width/height words when the call hands back a buffer, `Option.none` when it
hands back `NULL`; `fetch3 n` is the byte buffer returned when `n` 32-bit
words are requested. -/
structure IconEnv where
  fetch1 : Option Nat
  fetch2 : Option Nat
  fetch3 : Nat → Option (List Nat)
  hints : Option HintsEnv

/-- The icon source resolved for an event: the value of `image_proxy_`
after `GetAttributesFromWindow` ran — nothing, a `RawImageProxy` built from
the inline `_NET_WM_ICON` property, or an `XImageProxy` built from a
pixmap (and optional mask). -/
inductive IconSource where
  | none
  | inline (proxy : RawImageProxy)
  | pixmapPair (proxy : XImageProxy)

/-- `true` exactly on `IconSource.none`. -/
def IconSource.isNone : IconSource → Bool
  | IconSource.none => true
  | _ => false

/-- `true` exactly on `IconSource.inline`. -/
def IconSource.isInline : IconSource → Bool
  | IconSource.inline _ => true
  | _ => false

/-- `true` exactly on `IconSource.pixmapPair`. -/
def IconSource.isPixmapPair : IconSource → Bool
  | IconSource.pixmapPair _ => true
  | _ => false

/-- The `IconPixmapHint` branch (lines 408-417): if the hint flag is set and
`GetImage` on the pixmap succeeds, build an `XImageProxy` whose mask is the
`GetImage` of the mask drawable when `IconMaskHint` is also set (and stays
null when that inner `GetImage` fails). -/
def hintsIconPixmap (hints : HintsEnv) : IconSource :=
  if hints.iconPixmapHint then
    match hints.iconPixmapImage with
    | Option.some pixmap =>
      IconSource.pixmapPair
        { width := pixmap.width, height := pixmap.height, pixmap := pixmap,
          mask := if hints.iconMaskHint then hints.iconMaskImage else Option.none }
    | Option.none => IconSource.none
  else IconSource.none

/-- The old-school fallback (lines 393-418): with no hints there is no icon;
with hints, the `IconWindowHint` branch is tried first (lines 398-406) — on
`GetImage` success it wins with a mask-less `XImageProxy`, on failure the
code falls through to the `IconPixmapHint` branch. -/
def hintsIconSource (hints : Option HintsEnv) : IconSource :=
  match hints with
  | Option.none => IconSource.none
  | Option.some h =>
    if h.iconWindowHint then
      match h.iconWindowImage with
      | Option.some img =>
        IconSource.pixmapPair
          { width := img.width, height := img.height, pixmap := img,
            mask := Option.none }
      | Option.none => hintsIconPixmap h
    else hintsIconPixmap h

/-- Lines 366-419: the `_NET_WM_ICON` probe is first.  If the width fetch
hands back a buffer, the function returns inside that block no matter what
the remaining fetches yield (`return` at line 391): a height- or pixel-fetch
failure leaves `image_proxy_` unset and the hints are never inspected.  Only
when the width fetch hands back `NULL` does the code fall back to the
window hints. -/
def selectIconSource (env : IconEnv) : IconSource :=
  match env.fetch1 with
  | Option.some w =>
    match env.fetch2 with
    | Option.some h =>
      match env.fetch3 (w * h) with
      | Option.some bytes => IconSource.inline (mkRawImageProxy w h bytes)
      | Option.none => IconSource.none
    | Option.none => IconSource.none
  | Option.none => hintsIconSource env.hints

/-- The `(long_offset, long_length)` arguments of the `XGetWindowProperty`
calls the code issues on `_NET_WM_ICON`, in order (lines 373, 378, 384):
`(0, 1)` for the width, then — only if a buffer came back — `(1, 1)` for the
height, then — only if a buffer came back again — `(2, icon_width *
icon_height)` for the pixel words. -/
def inlineFetchRequests (env : IconEnv) : List (Nat × Nat) :=
  match env.fetch1 with
  | Option.none => [(0, 1)]
  | Option.some w =>
    match env.fetch2 with
    | Option.none => [(0, 1), (1, 1)]
    | Option.some h => [(0, 1), (1, 1), (2, w * h)]

-- ───────────────────────────────────────────────────────────────────────────
-- BellEventImpl (src/x11Util.cpp lines 266-455): per-event attribute
-- resolution and accessors.
-- ───────────────────────────────────────────────────────────────────────────

/-- What the code observes of the X11 server during attribute resolution:
per window, the outcome of `XFetchName` (line 358), of `XGetWMClientMachine`
(line 362) and of the icon probes; plus the root window of the default
screen (lines 308-309). -/
structure X11Env where
  fetchName : Nat → Option String
  fetchHost : Nat → Option String
  iconEnv : Nat → IconEnv
  defaultRoot : Nat

/-- The per-event state filled in by `GetAttributesFromWindow`:
`windowName_` and `hostName_.value` (null pointers modelled as
`Option.none`) and `image_proxy_`. -/
structure WindowAttributes where
  windowName : Option String
  hostName : Option String
  icon : IconSource

/-- `BellEventImpl::GetAttributesFromWindow` (lines 356-419): fetch the
window name (failure only logs, line 360), fetch the client machine
(failure only logs, line 364), then resolve the icon source; the three
steps are straight-line code with no early exit between them. -/
def GetAttributesFromWindow (env : X11Env) (window : Nat) : WindowAttributes :=
  { windowName := env.fetchName window
    hostName := env.fetchHost window
    icon := selectIconSource (env.iconEnv window) }

/-- Lines 305-311 of the `BellEventImpl` constructor: a non-null event
window is used as is; a null (zero) window is replaced by
`RootWindow(display, DefaultScreen(display))`. -/
def resolveEventWindow (env : X11Env) (eventWindow : Nat) : Nat :=
  if eventWindow ≠ 0 then eventWindow else env.defaultRoot

/-- The attribute state of a freshly constructed `BellEventImpl` (lines
297-312): `GetAttributesFromWindow` applied to the resolved window. -/
def bellEventAttributes (env : X11Env) (eventWindow : Nat) : WindowAttributes :=
  GetAttributesFromWindow env (resolveEventWindow env eventWindow)

/-- `BellEventImpl::windowName` (lines 442-447): the fetched name, or the
empty string when `windowName_` is null. -/
def windowNameString (attrs : WindowAttributes) : String :=
  attrs.windowName.getD ""

/-- `BellEventImpl::hostName` (lines 449-455): the fetched client machine,
or the empty string when `hostName_.value` is null. -/
def hostNameString (attrs : WindowAttributes) : String :=
  attrs.hostName.getD ""

-- ───────────────────────────────────────────────────────────────────────────
-- X11DisplayDataImpl::X11DisplayDataImpl (src/x11Util.cpp lines 95-130):
-- session-open failure classification and exit statuses.
-- ───────────────────────────────────────────────────────────────────────────

/-- The five failure causes distinguished by the `switch` on the
`XkbOpenDisplay` error code (lines 104-122). -/
inductive XkbOpenError where
  | badLibraryVersion
  | badServerVersion
  | connectionRefused
  | nonXkbServer
  | unknownError (code : Int)
  deriving DecidableEq, Repr

/-- The `switch` of lines 104-122, classifying the integer error code set
by `XkbOpenDisplay`: `XkbOD_BadLibraryVersion = 1`,
`XkbOD_ConnectionRefused = 2`, `XkbOD_NonXkbServer = 3`,
`XkbOD_BadServerVersion = 4`, anything else lands in `default`. -/
def classifyOpenError (error : Int) : XkbOpenError :=
  if error = 1 then XkbOpenError.badLibraryVersion
  else if error = 4 then XkbOpenError.badServerVersion
  else if error = 2 then XkbOpenError.connectionRefused
  else if error = 3 then XkbOpenError.nonXkbServer
  else XkbOpenError.unknownError error

/-- The `exit` status used on each branch (lines 108, 112, 115, 118, 121):
`EX_CONFIG = 78` for both version mismatches, `EX_UNAVAILABLE = 69` for both
connection-refused and non-XKB-server, `EX_SOFTWARE = 70` for the default
branch (`<sysexits.h>` values). -/
def exitStatus : XkbOpenError → Nat
  | XkbOpenError.badLibraryVersion => 78
  | XkbOpenError.badServerVersion => 78
  | XkbOpenError.connectionRefused => 69
  | XkbOpenError.nonXkbServer => 69
  | XkbOpenError.unknownError _ => 70

-- ───────────────────────────────────────────────────────────────────────────
-- Concrete inputs used by witnesses and counterexamples.
-- ───────────────────────────────────────────────────────────────────────────

/-- A concrete 1×1 `XImage` whose only pixel value is 1. -/
def xImgOne : XImg :=
  { width := 1, height := 1, getPixel := fun _ _ => 1 }

/-- Concrete window hints carrying a valid icon pixmap and nothing else. -/
def hintsWithPixmap : HintsEnv :=
  { iconWindowHint := false, iconWindowImage := Option.none,
    iconPixmapHint := true, iconPixmapImage := Option.some xImgOne,
    iconMaskHint := false, iconMaskImage := Option.none }

/-- A concrete probe environment where the `_NET_WM_ICON` width fetch hands
back a buffer but the height fetch hands back `NULL`, while perfectly good
window hints with an icon pixmap are available. -/
def envInlineMalformed : IconEnv :=
  { fetch1 := Option.some 4, fetch2 := Option.none,
    fetch3 := fun _ => Option.none, hints := Option.some hintsWithPixmap }

/-- A concrete probe environment with a well-formed 1×1 inline icon. -/
def envInlineOk : IconEnv :=
  { fetch1 := Option.some 1, fetch2 := Option.some 1,
    fetch3 := fun _ => Option.some [1, 2, 3, 4], hints := Option.none }

/-- A concrete server environment where both the name fetch and the host
fetch fail for every window, while the icon probe finds an inline icon. -/
def envBestEffort : X11Env :=
  { fetchName := fun _ => Option.none, fetchHost := fun _ => Option.none,
    iconEnv := fun _ => envInlineOk, defaultRoot := 5 }

/-- A concrete 2×2 mask-less `XImageProxy`. -/
def xProxyTwo : XImageProxy :=
  { width := 2, height := 2, pixmap := { width := 2, height := 2, getPixel := fun _ _ => 1 },
    mask := Option.none }

/-- A concrete 1×1 `XImageProxy` whose mask's only pixel is clear (zero). -/
def xProxyMaskClear : XImageProxy :=
  { width := 1, height := 1, pixmap := { width := 1, height := 1, getPixel := fun _ _ => 0 },
    mask := Option.some { width := 1, height := 1, getPixel := fun _ _ => 0 } }

-- ───────────────────────────────────────────────────────────────────────────
-- Theorems about the claims.
-- ───────────────────────────────────────────────────────────────────────────

/-- `provideARGB` is the pointwise read of the buffer at `rawReadIndices`:
the function performs exactly these reads, with no bounds check of any kind
(there is no `assert` in `RawImageProxy::provideARGB`). -/
theorem RawImageProxy.provideARGB_eq_map_readIndices
    (img : RawImageProxy) (x y width height : Nat) :
    img.provideARGB x y width height =
      (rawReadIndices x y width height).map (fun i => img.pixels.getD i 0) := by
  simp [RawImageProxy.provideARGB, rawReadIndices, List.map_flatMap,
    Function.comp_def]

/-- Reading `k` consecutive buffer bytes starting at `off` (all in bounds)
yields the slice `(l.drop off).take k`. -/
theorem map_getD_range (l : List Nat) (off k : Nat) (h : off + k ≤ l.length) :
    (List.range k).map (fun c => l.getD (off + c) 0) = (l.drop off).take k := by
  induction k with
  | zero => simp
  | succ k ih =>
    rw [List.range_succ, List.map_append]
    rw [ih (by omega)]
    have hk : off + k < l.length := by omega
    simp only [List.map_cons, List.map_nil]
    rw [List.take_succ]
    congr 1
    rw [List.getElem?_drop]
    rw [List.getElem?_eq_getElem hk]
    rw [List.getD_eq_getElem?_getD, List.getElem?_eq_getElem hk]
    rfl

/-- Concatenating `n` consecutive `k`-byte slices of a buffer yields its
first `n * k` bytes. -/
theorem flatMap_drop_take (l : List Nat) (k n : Nat) (h : n * k ≤ l.length) :
    (List.range n).flatMap (fun i => (l.drop (i * k)).take k) = l.take (n * k) := by
  induction n with
  | zero => simp
  | succ n ih =>
    rw [List.range_succ, List.flatMap_append]
    rw [ih (by nlinarith [Nat.succ_mul n k])]
    simp only [List.flatMap_cons, List.flatMap_nil, List.append_nil]
    rw [Nat.succ_mul, List.take_add]

/-- Whole-image rendering (the `provideARGB(data)` overload of
src/x11Util.h line 27, which calls `provideARGB(0, 0, width_, height_, data)`)
reproduces the stored byte buffer exactly: with `x = 0`, `y = 0` and the
request equal to the full image, the row stride used by the loop coincides
with the image width, so the reads are the identity traversal. -/
theorem provideARGB_full (img : RawImageProxy)
    (hlen : img.pixels.length = img.width * img.height * 4) :
    img.provideARGB 0 0 img.width img.height = img.pixels := by
  unfold RawImageProxy.provideARGB
  simp only [Nat.add_zero]
  have hrow : ∀ yd ∈ List.range img.height,
      (List.range img.width).flatMap (fun xd =>
        (List.range 4).map (fun c =>
          img.pixels.getD ((yd * img.width + xd) * 4 + c) 0)) =
      (img.pixels.drop (yd * (img.width * 4))).take (img.width * 4) := by
    intro yd hyd
    rw [List.mem_range] at hyd
    have hinner : ∀ xd ∈ List.range img.width,
        (List.range 4).map (fun c =>
          img.pixels.getD ((yd * img.width + xd) * 4 + c) 0) =
        ((img.pixels.drop (yd * (img.width * 4))).drop (xd * 4)).take 4 := by
      intro xd hxd
      rw [List.mem_range] at hxd
      rw [map_getD_range img.pixels ((yd * img.width + xd) * 4) 4 (by nlinarith)]
      rw [List.drop_drop]
      congr 2
      ring
    rw [List.flatMap_congr hinner]
    refine flatMap_drop_take _ 4 img.width ?_
    rw [List.length_drop, hlen]
    have hb : yd * (img.width * 4) + img.width * 4 ≤
        img.width * img.height * 4 := by nlinarith
    omega
  rw [List.flatMap_congr hrow]
  rw [flatMap_drop_take img.pixels (img.width * 4) img.height
    (by rw [hlen]; ring_nf; omega)]
  rw [show img.height * (img.width * 4) = img.pixels.length from by
    rw [hlen]; ring]
  exact List.take_length img.pixels

/-- A row request at a row index past the image height fails the `y` assert
at its first pixel. -/
theorem provideRow_none_of_height_le (img : XImageProxy) (y x width : Nat)
    (hy : img.height ≤ y) (hw : 0 < width) :
    img.provideRow y x width = Option.none := by
  cases width with
  | zero => omega
  | succ w =>
    have hp : img.providePixel x y = Option.none := by
      unfold XImageProxy.providePixel
      rw [if_neg (by omega)]
    unfold XImageProxy.provideRow
    rw [hp]

/-- A nonempty row request whose right edge passes the image width fails the
`x` assert at some pixel. -/
theorem provideRow_none_of_width_oob (img : XImageProxy) (y : Nat) :
    ∀ x width, img.width < x + width → 0 < width →
      img.provideRow y x width = Option.none := by
  intro x width
  induction width generalizing x with
  | zero => intro _ h; omega
  | succ w ih =>
    intro hoob _
    rcases hpx : img.providePixel x y with _ | px
    · unfold XImageProxy.provideRow
      rw [hpx]
    · have hxlt : x < img.width := by
        by_contra hc
        have hnone : img.providePixel x y = Option.none := by
          unfold XImageProxy.providePixel
          rw [if_neg (by omega)]
        rw [hnone] at hpx
        exact Option.noConfusion hpx
      have hw0 : 0 < w := by omega
      have hrest := ih (x + 1) (by omega) hw0
      unfold XImageProxy.provideRow
      rw [hpx, hrest]

/-- C3 (amended part): for the pixmap-pair proxy `XImageProxy`, every
nonempty render request whose rectangle is not contained in
`[0, w) × [0, h)` is rejected by the per-pixel assertions of `providePixel`
(lines 191-192): `provideARGB` aborts instead of producing bytes. -/
theorem ximage_render_rejects_oob (img : XImageProxy)
    (x y width height : Nat) (hw : 0 < width) (hh : 0 < height)
    (hoob : img.width < x + width ∨ img.height < y + height) :
    img.provideARGB x y width height = Option.none := by
  unfold XImageProxy.provideARGB
  rcases hoob with hoob | hoob
  · cases height with
    | zero => omega
    | succ h =>
      unfold XImageProxy.provideRows
      rw [provideRow_none_of_width_oob img y x width hoob hw]
  · have main : ∀ height y, 0 < height → img.height < y + height →
        img.provideRows x width y height = Option.none := by
      intro height
      induction height with
      | zero =>
        intro y h
        omega
      | succ h ih =>
        intro y _ hoob2
        rcases le_or_lt img.height y with hy | hy
        · unfold XImageProxy.provideRows
          rw [provideRow_none_of_height_le img y x width hy hw]
        · have hp : 0 < h := by omega
          have hrest := ih (y + 1) hp (by omega)
          rcases hrow : img.provideRow y x width with _ | row
          · unfold XImageProxy.provideRows
            rw [hrow]
          · unfold XImageProxy.provideRows
            rw [hrow, hrest]
    exact main height y hh hoob

/-- Witness for the C3 amended theorem: on a concrete 2×2 pixmap-pair proxy
the request `(1, 1, 2, 2)`, which sticks out on both axes, is rejected. -/
theorem ximage_render_rejects_oob_witness :
    xProxyTwo.provideARGB 1 1 2 2 = Option.none :=
  ximage_render_rejects_oob xProxyTwo 1 1 2 2 (by decide) (by decide)
    (Or.inl (by decide))

/-- C3 counterexample: the claim fails for the inline-property proxy.
`RawImageProxy::provideARGB` contains no bounds check at all: on a 2×2 icon
(16-byte buffer) the request `(0, 0, 2, 3)`, which exceeds the image height,
is not rejected — all 24 output bytes are produced and the read indices of
the loop go past the end of the 16-byte buffer. -/
theorem raw_render_no_bounds_rejection :
    (mkRawImageProxy 2 2 (List.range 16)).pixels.length = 16 ∧
    (2 : Nat) < 0 + 3 ∧
    ((mkRawImageProxy 2 2 (List.range 16)).provideARGB 0 0 2 3).length = 24 ∧
    ((rawReadIndices 0 0 2 3).any (fun i => 16 ≤ i)) = true := by decide

/-- C2 counterexample: the five failure causes do not get five distinct exit
statuses.  Library-too-old (`XkbOD_BadLibraryVersion = 1`) and
server-too-old (`XkbOD_BadServerVersion = 4`) are distinct causes yet both
exit with `EX_CONFIG`, and connection-refused and non-XKB-server are
distinct causes yet both exit with `EX_UNAVAILABLE`. -/
theorem open_error_statuses_not_distinct :
    classifyOpenError 1 = XkbOpenError.badLibraryVersion ∧
    classifyOpenError 4 = XkbOpenError.badServerVersion ∧
    XkbOpenError.badLibraryVersion ≠ XkbOpenError.badServerVersion ∧
    exitStatus XkbOpenError.badLibraryVersion =
      exitStatus XkbOpenError.badServerVersion ∧
    XkbOpenError.connectionRefused ≠ XkbOpenError.nonXkbServer ∧
    exitStatus XkbOpenError.connectionRefused =
      exitStatus XkbOpenError.nonXkbServer := by decide

/-- C2 (amended): opening a display session classifies failure into five
causes, and the five causes map onto three distinct exit statuses: both
version mismatches exit `EX_CONFIG = 78`, both unavailability causes exit
`EX_UNAVAILABLE = 69`, and the unknown cause exits `EX_SOFTWARE = 70`. -/
theorem open_error_three_status_classes :
    exitStatus XkbOpenError.badLibraryVersion = 78 ∧
    exitStatus XkbOpenError.badServerVersion = 78 ∧
    exitStatus XkbOpenError.connectionRefused = 69 ∧
    exitStatus XkbOpenError.nonXkbServer = 69 ∧
    (∀ c : Int, exitStatus (XkbOpenError.unknownError c) = 70) ∧
    (∀ e : XkbOpenError,
      exitStatus e = 78 ∨ exitStatus e = 69 ∨ exitStatus e = 70) ∧
    (78 : Nat) ≠ 69 ∧ (78 : Nat) ≠ 70 ∧ (69 : Nat) ≠ 70 := by
  refine ⟨rfl, rfl, rfl, rfl, fun c => rfl, fun e => ?_, by decide, by decide,
    by decide⟩
  cases e <;> simp [exitStatus]

/-- C4 counterexample: when the inline property is present but not
well-formed, the window hints are not inspected.  In `envInlineMalformed`
the width fetch succeeds and the height fetch fails while valid hints with
an icon pixmap exist: the code resolves no icon at all, although the
hint-inspection procedure would have produced a pixmap-pair icon. -/
theorem inline_probe_commits_counterexample :
    (selectIconSource envInlineMalformed).isNone = true ∧
    (hintsIconSource envInlineMalformed.hints).isPixmapPair = true := by
  exact ⟨rfl, rfl⟩

/-- C4 (amended): the inline-pixel property is probed first and wins
outright when present and well-formed (all three fetches succeed); the
window hints are inspected exactly when the first (width) fetch hands back
nothing; when the width fetch succeeds but a later fetch fails, the icon
source is none and the hints are not consulted; and exactly one of
{none, inline, pixmap-pair} is active, the selection being the value of a
single function of the probe outcomes. -/
theorem icon_source_selection (env : IconEnv) :
    (∀ w h bytes, env.fetch1 = Option.some w → env.fetch2 = Option.some h →
      env.fetch3 (w * h) = Option.some bytes →
      selectIconSource env = IconSource.inline (mkRawImageProxy w h bytes)) ∧
    (env.fetch1 = Option.none →
      selectIconSource env = hintsIconSource env.hints) ∧
    (∀ w, env.fetch1 = Option.some w →
      (env.fetch2 = Option.none ∨
        ∃ h, env.fetch2 = Option.some h ∧ env.fetch3 (w * h) = Option.none) →
      selectIconSource env = IconSource.none) ∧
    ((selectIconSource env).isNone = true ∨
      (selectIconSource env).isInline = true ∨
      (selectIconSource env).isPixmapPair = true) ∧
    ¬((selectIconSource env).isInline = true ∧
      (selectIconSource env).isPixmapPair = true) ∧
    ¬((selectIconSource env).isNone = true ∧
      (selectIconSource env).isInline = true) ∧
    ¬((selectIconSource env).isNone = true ∧
      (selectIconSource env).isPixmapPair = true) := by
  refine ⟨?_, ?_, ?_, ?_, ?_, ?_, ?_⟩
  · intro w h bytes h1 h2 h3
    simp only [selectIconSource, h1, h2, h3]
  · intro h1
    simp only [selectIconSource, h1]
  · intro w h1 hbad
    rcases hbad with h2 | ⟨h, h2, h3⟩
    · simp only [selectIconSource, h1, h2]
    · simp only [selectIconSource, h1, h2, h3]
  · cases selectIconSource env <;>
      simp [IconSource.isNone, IconSource.isInline, IconSource.isPixmapPair]
  · cases selectIconSource env <;>
      simp [IconSource.isNone, IconSource.isInline, IconSource.isPixmapPair]
  · cases selectIconSource env <;>
      simp [IconSource.isNone, IconSource.isInline, IconSource.isPixmapPair]
  · cases selectIconSource env <;>
      simp [IconSource.isNone, IconSource.isInline, IconSource.isPixmapPair]

/-- Witness for the C4 amended theorem: in the concrete environment with a
well-formed 1×1 inline icon, the selection is that inline icon. -/
theorem icon_source_selection_witness :
    selectIconSource envInlineOk =
      IconSource.inline (mkRawImageProxy 1 1 [1, 2, 3, 4]) :=
  (icon_source_selection envInlineOk).1 1 1 [1, 2, 3, 4] rfl rfl rfl

/-- C5: the `_NET_WM_ICON` read issues at most three property fetches, and
on the path where the first two succeed it issues exactly the three
requests `(0, 1)`, `(1, 1)`, `(2, w * h)` — the third fetch asks for
exactly the product of the width and height obtained by the first two
fetches, never more. -/
theorem inline_property_bounded_fetches (env : IconEnv) :
    (inlineFetchRequests env).length ≤ 3 ∧
    (∀ w h, env.fetch1 = Option.some w → env.fetch2 = Option.some h →
      inlineFetchRequests env = [(0, 1), (1, 1), (2, w * h)] ∧
      ∀ r ∈ inlineFetchRequests env, r.2 ≤ w * h ∨ r.2 = 1) := by
  constructor
  · unfold inlineFetchRequests
    rcases env.fetch1 with _ | w
    · simp
    · rcases env.fetch2 with _ | h <;> simp
  · intro w h h1 h2
    unfold inlineFetchRequests
    rw [h1, h2]
    refine ⟨rfl, ?_⟩
    intro r hr
    simp only [List.mem_cons, List.not_mem_nil, or_false] at hr
    rcases hr with rfl | rfl | rfl <;> simp

/-- Witness for C5: in the concrete environment with a well-formed 1×1
inline icon the three requests are issued, the third asking for
`1 * 1` words. -/
theorem inline_property_bounded_fetches_witness :
    inlineFetchRequests envInlineOk = [(0, 1), (1, 1), (2, 1 * 1)] :=
  ((inline_property_bounded_fetches envInlineOk).2 1 1 rfl rfl).1

/-- C6: for every pixmap-pair proxy and in-bounds pixel, `providePixel`
succeeds and its first output byte — the alpha byte — is `0xFF` when no
mask is present, and is `0xFF`/`0x00` according to whether the mask pixel
at `(x, y)` is non-zero/zero when a mask is present. -/
theorem pixmap_pair_alpha_byte (img : XImageProxy) (x y : Nat)
    (hx : x < img.width) (hy : y < img.height) :
    (img.providePixel x y).isSome = true ∧
    ((img.providePixel x y).getD []).headD 0 =
      (match img.mask with
       | Option.none => 0xff
       | Option.some m => if m.getPixel x y ≠ 0 then 0xff else 0x00) := by
  rcases hm : img.mask with _ | m
  · constructor
    · simp [XImageProxy.providePixel, hx, hy, hm]
    · simp [XImageProxy.providePixel, hx, hy, hm]
  · constructor
    · simp [XImageProxy.providePixel, hx, hy, hm]
    · by_cases hz : m.getPixel x y = 0
      · simp [XImageProxy.providePixel, hx, hy, hm, hz]
      · simp [XImageProxy.providePixel, hx, hy, hm, hz]

/-- Witness for C6: on the concrete 1×1 proxy whose mask pixel is clear,
the pixel is produced with alpha byte `0x00`. -/
theorem pixmap_pair_alpha_byte_witness :
    (xProxyMaskClear.providePixel 0 0).isSome = true ∧
    ((xProxyMaskClear.providePixel 0 0).getD []).headD 0 = 0x00 :=
  pixmap_pair_alpha_byte xProxyMaskClear 0 0 (by decide) (by decide)

/-- C7: a bell event whose originating window is null (zero) resolves its
attributes on the default root window of the default screen, and this
always yields a well-formed `WindowAttributes` — the accessors return the
fetched strings or the empty string, never failing. -/
theorem null_window_uses_default_root (env : X11Env) :
    resolveEventWindow env 0 = env.defaultRoot ∧
    bellEventAttributes env 0 = GetAttributesFromWindow env env.defaultRoot ∧
    windowNameString (bellEventAttributes env 0) =
      (env.fetchName env.defaultRoot).getD "" ∧
    hostNameString (bellEventAttributes env 0) =
      (env.fetchHost env.defaultRoot).getD "" :=
  ⟨rfl, rfl, rfl, rfl⟩

/-- C8: each attribute fetch is independently best-effort.  A failed name
fetch makes `windowName()` return the empty string, a failed host fetch
makes `hostName()` return the empty string, and each of the three resolved
fields — name, host, icon — is a function of its own fetch alone, so a
failure of one never aborts resolution of the others. -/
theorem attribute_fetch_best_effort (env : X11Env) (ew : Nat) :
    (env.fetchName (resolveEventWindow env ew) = Option.none →
      windowNameString (bellEventAttributes env ew) = "") ∧
    (env.fetchHost (resolveEventWindow env ew) = Option.none →
      hostNameString (bellEventAttributes env ew) = "") ∧
    (bellEventAttributes env ew).windowName =
      env.fetchName (resolveEventWindow env ew) ∧
    (bellEventAttributes env ew).hostName =
      env.fetchHost (resolveEventWindow env ew) ∧
    (bellEventAttributes env ew).icon =
      selectIconSource (env.iconEnv (resolveEventWindow env ew)) := by
  refine ⟨?_, ?_, rfl, rfl, rfl⟩
  · intro h
    unfold windowNameString bellEventAttributes GetAttributesFromWindow
    rw [h]
    rfl
  · intro h
    unfold hostNameString bellEventAttributes GetAttributesFromWindow
    rw [h]
    rfl

/-- Witness for C8: in the concrete environment where both fetches fail for
every window, both accessors return the empty string for event window 7. -/
theorem attribute_fetch_best_effort_witness :
    windowNameString (bellEventAttributes envBestEffort 7) = "" ∧
    hostNameString (bellEventAttributes envBestEffort 7) = "" :=
  ⟨(attribute_fetch_best_effort envBestEffort 7).1 rfl,
   (attribute_fetch_best_effort envBestEffort 7).2.1 rfl⟩

set_option maxRecDepth 10000 in
/-- C9: for the 16×16 inline-property icon whose pixels form a checkerboard
alternating between fully-opaque red (`0xFF,0xFF,0x00,0x00`) and
fully-transparent (`0x00,0x00,0x00,0x00`), `render(0, 0, 16, 16)` produces
exactly that 1024-byte sequence. -/
theorem checkerboard_roundtrip :
    (mkRawImageProxy 16 16 checkerBytes).provideARGB 0 0 16 16 = checkerBytes ∧
    checkerBytes.length = 1024 := by
  have hlen : checkerBytes.length = 1024 := by decide
  have hpx : (mkRawImageProxy 16 16 checkerBytes).pixels = checkerBytes := by
    show checkerBytes.take (16 * 16 * 4) = checkerBytes
    exact List.take_of_length_le (by rw [hlen])
  refine ⟨?_, hlen⟩
  have h := provideARGB_full (mkRawImageProxy 16 16 checkerBytes)
    (by rw [hpx, hlen]; rfl)
  rw [hpx] at h
  exact h

/-- C1: the full-rectangle call is byte-identical to the stored property
bytes, but tiling invariance fails on the code.  `RawImageProxy::provideARGB`
uses the request width, not the image width, as the row stride
(`p = (((yd + y) * width) + (xd + x)) * 4` at line 252), so on a 2×2 icon
with bytes `0..15` the right-column tile `render(1, 0, 1, 2)` returns the
bytes of pixels (1,0) and (0,1) instead of (1,0) and (1,1), and reassembling
the left- and right-column tiles row by row does not reproduce the
full-image bytes. -/
theorem raw_render_stride_divergence :
    ((mkRawImageProxy 2 2 (List.range 16)).provideARGB 0 0 2 2 =
      List.range 16) ∧
    ((mkRawImageProxy 2 2 (List.range 16)).provideARGB 1 0 1 2 =
      [4, 5, 6, 7, 8, 9, 10, 11]) ∧
    ((mkRawImageProxy 2 2 (List.range 16)).provideARGB 1 0 1 2 ≠
      [4, 5, 6, 7, 12, 13, 14, 15]) ∧
    (((mkRawImageProxy 2 2 (List.range 16)).provideARGB 0 0 1 2).take 4 ++
        ((mkRawImageProxy 2 2 (List.range 16)).provideARGB 1 0 1 2).take 4 ++
        (((mkRawImageProxy 2 2 (List.range 16)).provideARGB 0 0 1 2).drop 4 ++
          ((mkRawImageProxy 2 2 (List.range 16)).provideARGB 1 0 1 2).drop 4) ≠
      List.range 16) := by decide

/-- C10: the constructor copies exactly `width * height * 4` source bytes
into the proxy's own buffer, so the proxy state — and with it every later
`provideARGB` call — depends only on that prefix of the source buffer: two
source buffers agreeing on the first `width * height * 4` bytes (e.g. the
original buffer before and after it is mutated or released) yield equal
proxies and identical render output. -/
theorem raw_proxy_copies_at_construction (w h : Nat) (d1 d2 : List Nat)
    (hagree : d1.take (w * h * 4) = d2.take (w * h * 4))
    (hlen : w * h * 4 ≤ d1.length) :
    (mkRawImageProxy w h d1).pixels.length = w * h * 4 ∧
    mkRawImageProxy w h d1 = mkRawImageProxy w h d2 ∧
    ∀ x y width height, (mkRawImageProxy w h d1).provideARGB x y width height =
      (mkRawImageProxy w h d2).provideARGB x y width height := by
  have heq : mkRawImageProxy w h d1 = mkRawImageProxy w h d2 := by
    unfold mkRawImageProxy
    rw [hagree]
  refine ⟨?_, heq, fun x y width height => by rw [heq]⟩
  simp only [mkRawImageProxy, List.length_take]
  omega

/-- Witness for C10 at a concrete input: a 2×2 proxy built from the 16-byte
buffer `0..15` equals the proxy built from that buffer with a byte appended
past the copied region. -/
theorem raw_proxy_copies_at_construction_witness :
    mkRawImageProxy 2 2 (List.range 16) =
      mkRawImageProxy 2 2 (List.range 16 ++ [7]) :=
  (raw_proxy_copies_at_construction 2 2 (List.range 16) (List.range 16 ++ [7])
    (by decide) (by decide)).2.1

end Xkbgrowl
